import Mathlib

/-!
Shallow embedding of `cwmetrics` (`src/cwmetrics/__init__.py`):
a CloudWatch metrics buffer with batched sending, a throttling-tolerant
flush loop, and nesting-controlled instrumentation decorators.

The embedding models the observable state of one `CloudWatchMetricsBuffer`
instance as a `World`: the buffered metric dicts, the nesting level, a
millisecond clock (standing in for `datetime.now`/`datetime.utcnow`), and
logs of the externally visible effects (transport calls, printed throttling
diagnostics, guard-triggered flushes).  The boto3 client is an external
oracle `respond : Nat -> TransportResult` giving the outcome of the i-th
`put_metric_data` call.  Python exceptions are modelled with `Except`:
state changes made before a raise persist, as in Python.
-/

namespace Cwmetrics

/-- Payload of one metric dict: either `'Value': v` (from `put_value`) or
`'StatisticValues': {...}` (from `put_statistic`). -/
inductive Payload where
  | value (v : Int)
  | statisticValues (sum : Int) (sampleCount : Int) (minimum : Int) (maximum : Int)
deriving DecidableEq, Repr

/-- One buffered metric dict, after `_handle_common_params` has run:
`Unit` and `Dimensions` keys are optional, `Timestamp` is always set. -/
structure Metric where
  metricName : String
  payload : Payload
  unit : Option String
  dimensions : Option (List (String × String))
  timestamp : Nat
deriving DecidableEq, Repr

/-- The `dimensions` argument as accepted by the Python API:
a dict, an already-shaped list/tuple of `Name`/`Value` pairs, or `None`. -/
inductive DimIn where
  | dict (pairs : List (String × String))
  | list (pairs : List (String × String))
  | noDims
deriving DecidableEq, Repr

/-- The dimension normalization performed by `_handle_common_params`:
a dict is converted to a list of Name/Value pairs, a list/tuple is kept
as given, `None` leaves the `Dimensions` key absent. -/
def normDims : DimIn → Option (List (String × String))
  | DimIn.dict pairs => some pairs
  | DimIn.list pairs => some pairs
  | DimIn.noDims => none

/-- `_handle_common_params`: fills `Unit`, `Dimensions` and `Timestamp`
(the latter defaulting to the current time `now`). -/
def handle_common_params (metricName : String) (payload : Payload) (dimensions : DimIn)
    (unit : Option String) (timestamp : Option Nat) (now : Nat) : Metric :=
  { metricName := metricName
    payload := payload
    unit := unit
    dimensions := normDims dimensions
    timestamp := timestamp.getD now }

/-- Outcome of one `put_metric_data` call, decided by the external backend:
success, a `botocore.exceptions.ClientError` with an error code, or any
other raised exception. -/
inductive TransportResult where
  | ok
  | clientError (code : String)
  | raised (msg : String)
deriving DecidableEq, Repr

/-- Python exceptions crossing the modelled code: an error raised by wrapped
application logic, a `ClientError` propagated out of `send`, or another
exception propagated out of `send`. -/
inductive PyErr where
  | userErr (msg : String)
  | clientError (code : String)
  | otherExc (msg : String)
deriving DecidableEq, Repr

/-- Observable state of one `CloudWatchMetricsBuffer` instance plus the
effect logs: `calls` records each batch passed to `put_metric_data` in
order, `diags` each printed throttling diagnostic (batch size, namespace),
`flushCount` each guard-triggered `send()`, `callIdx` the number of
transport calls made so far (the index fed to the transport oracle). -/
structure World where
  nspace : String
  metrics : List Metric
  nesting_level : Int
  clock : Nat
  callIdx : Nat
  calls : List (List Metric)
  diags : List (Nat × String)
  flushCount : Nat
deriving DecidableEq, Repr

/-- A fresh buffer for a namespace: empty metrics, nesting level 0, and a
starting clock value. -/
def initWorld (nspace : String) (clock : Nat) : World :=
  { nspace := nspace, metrics := [], nesting_level := 0, clock := clock,
    callIdx := 0, calls := [], diags := [], flushCount := 0 }

/-- `put_value`: builds a `Value`-payload metric dict via
`_handle_common_params` and appends it to `self.metrics`. -/
def put_value (w : World) (metric_name : String) (value : Int) (dimensions : DimIn)
    (unit : Option String) (timestamp : Option Nat) : World :=
  { w with metrics := w.metrics ++
      [handle_common_params metric_name (Payload.value value) dimensions unit timestamp w.clock] }

/-- `put_statistic`: builds a `StatisticValues`-payload metric dict via
`_handle_common_params` and appends it to `self.metrics`. -/
def put_statistic (w : World) (metric_name : String) (sample_count : Int) (sum : Int)
    (minimum : Int) (maximum : Int) (timestamp : Option Nat) (dimensions : DimIn)
    (unit : Option String) : World :=
  { w with metrics := w.metrics ++
      [handle_common_params metric_name
        (Payload.statisticValues sum sample_count minimum maximum)
        dimensions unit timestamp w.clock] }

/-- `send`: while metrics remain, pass the first 20 to `put_metric_data`.
A `ClientError` with code `Throttling` prints a diagnostic and the batch is
still deleted; any other `ClientError` (or other exception) propagates
before the `del`, leaving the batch and everything after it buffered. -/
def send (respond : Nat → TransportResult) (w : World) : World × Except PyErr Unit :=
  if w.metrics.length = 0 then (w, Except.ok ())
  else
    let batch := w.metrics.take 20
    let w1 := { w with callIdx := w.callIdx + 1, calls := w.calls ++ [batch] }
    match respond w.callIdx with
    | TransportResult.ok =>
        send respond { w1 with metrics := w1.metrics.drop 20 }
    | TransportResult.clientError code =>
        if code = "Throttling" then
          send respond { w1 with metrics := w1.metrics.drop 20,
                                 diags := w1.diags ++ [(batch.length, w1.nspace)] }
        else (w1, Except.error (PyErr.clientError code))
    | TransportResult.raised msg => (w1, Except.error (PyErr.otherExc msg))
  termination_by w.metrics.length
  decreasing_by
    all_goals simp [List.length_drop]; omega

/-- The batches `send` would form from a buffer: repeatedly the first
`min(20, remaining)` elements. -/
def chunks (l : List Metric) : List (List Metric) :=
  if l.length = 0 then [] else l.take 20 :: chunks (l.drop 20)
  termination_by l.length
  decreasing_by
    all_goals simp [List.length_drop]; omega

/-- A piece of Python code running against the buffer: it transforms the
world and either returns a value or raises.  State changes made before a
raise persist, as in Python. -/
def Prog (α : Type) : Type := World → World × Except PyErr α

/-- `_nested`: increment `nesting_level`, run the wrapped function, and on
normal return decrement and — at level 0 — call `send()`.  Faithful to the
source: there is no `try`/`finally`, so when the wrapped function raises,
the decrement (and any flush) is skipped. -/
def nested (respond : Nat → TransportResult) (func : Prog α) : Prog α := fun w =>
  let w1 := { w with nesting_level := w.nesting_level + 1 }
  match func w1 with
  | (w2, Except.error e) => (w2, Except.error e)
  | (w2, Except.ok ret) =>
      let w3 := { w2 with nesting_level := w2.nesting_level - 1 }
      if w3.nesting_level = (0 : Int) then
        match send respond { w3 with flushCount := w3.flushCount + 1 } with
        | (w4, Except.error e) => (w4, Except.error e)
        | (w4, Except.ok _) => (w4, Except.ok ret)
      else (w3, Except.ok ret)

/-- `timeit(metric_name, dimensions)` applied to a function: the `_nested`
wrapper around: record the start time, run the function, and on normal
return `put_value` the elapsed milliseconds with unit `Milliseconds`. -/
def timeit (respond : Nat → TransportResult) (metric_name : String) (dimensions : DimIn)
    (func : Prog α) : Prog α :=
  nested respond (fun w =>
    let start := w.clock
    match func w with
    | (w2, Except.error e) => (w2, Except.error e)
    | (w2, Except.ok ret) =>
        (put_value w2 metric_name (Int.ofNat (w2.clock - start)) dimensions
          (some "Milliseconds") none, Except.ok ret))

/-- `count(metric_name, count_value, dimensions)` applied to a function:
the `_nested` wrapper around: run the function and on normal return
`put_value` the count value (no unit). -/
def count (respond : Nat → TransportResult) (metric_name : String) (count_value : Int)
    (dimensions : DimIn) (func : Prog α) : Prog α :=
  nested respond (fun w =>
    match func w with
    | (w2, Except.error e) => (w2, Except.error e)
    | (w2, Except.ok ret) =>
        (put_value w2 metric_name count_value dimensions none none, Except.ok ret))

/-- Wrapped application logic that takes `d` milliseconds and returns
normally with `ret`, touching nothing else. -/
def pureLogic (d : Nat) (ret : α) : Prog α := fun w =>
  ({ w with clock := w.clock + d }, Except.ok ret)

/-- Wrapped application logic that takes `d` milliseconds and then raises
`e`. -/
def failLogic (d : Nat) (e : PyErr) : Prog α := fun w =>
  ({ w with clock := w.clock + d }, Except.error e)

/-- Run a program `n` times in sequence, stopping at the first raise. -/
def iterate (f : Prog Unit) : Nat → World → World × Except PyErr Unit
  | 0, w => (w, Except.ok ())
  | n + 1, w =>
      match f w with
      | (w1, Except.ok _) => iterate f n w1
      | (w1, Except.error e) => (w1, Except.error e)

/-- All metrics the buffer has ever held, in production order: those already
passed to the transport (in batch order) followed by those still buffered.
`put_value` appends to this list; a flush without hard failure only moves
elements from the buffered part to the sent part. -/
def history (w : World) : List Metric := w.calls.flatten ++ w.metrics

/-- The throttling diagnostics `send` prints when the transport answers the
calls for batches `bs` (starting at call index `i`): one `(batch size,
namespace)` entry per throttled batch. -/
def expectedDiags (respond : Nat → TransportResult) (i : Nat) (bs : List (List Metric))
    (nspace : String) : List (Nat × String) :=
  match bs with
  | [] => []
  | b :: rest =>
      (match respond i with
       | TransportResult.clientError _ => [(b.length, nspace)]
       | _ => []) ++ expectedDiags respond (i + 1) rest nspace

/-- One direct buffering call made by application code. -/
inductive PutOp where
  | putValue (metric_name : String) (value : Int) (dimensions : DimIn)
      (unit : Option String) (timestamp : Option Nat)
  | putStatistic (metric_name : String) (sample_count : Int) (sum : Int)
      (minimum : Int) (maximum : Int) (timestamp : Option Nat) (dimensions : DimIn)
      (unit : Option String)
deriving Repr

/-- Run a sequence of `put_value`/`put_statistic` calls. -/
def runPuts (w : World) : List PutOp → World
  | [] => w
  | PutOp.putValue mn v d u ts :: rest => runPuts (put_value w mn v d u ts) rest
  | PutOp.putStatistic mn sc s mi ma ts d u :: rest =>
      runPuts (put_statistic w mn sc s mi ma ts d u) rest

/-- Classification used by `send`'s exception handler: `Throttling`
`ClientError`s are swallowed, any other `ClientError` or other exception is
a hard failure that propagates. -/
def hardError : TransportResult → Option PyErr
  | TransportResult.ok => none
  | TransportResult.clientError c =>
      if c = "Throttling" then none else some (PyErr.clientError c)
  | TransportResult.raised m => some (PyErr.otherExc m)

/-- Concrete buffer with 25 one-value metrics, used to exercise `send`. -/
def wTwentyFive : World :=
  { nspace := "ns",
    metrics := (List.range 25).map (fun i =>
      { metricName := "m", payload := Payload.value (Int.ofNat i), unit := none,
        dimensions := none, timestamp := 0 }),
    nesting_level := 0, clock := 0, callIdx := 0, calls := [], diags := [],
    flushCount := 0 }

/-- Concrete transport schedule: first call succeeds, every later call
fails with a hard (non-throttling) `ClientError`. -/
def respondBoom : Nat → TransportResult :=
  fun i => if i = 0 then TransportResult.ok else TransportResult.clientError "Boom"

/-! ### Helper lemmas about `send` and `chunks` -/

theorem send_unfold (respond : Nat → TransportResult) (w : World) :
    send respond w =
      if w.metrics.length = 0 then (w, Except.ok ())
      else
        let batch := w.metrics.take 20
        let w1 := { w with callIdx := w.callIdx + 1, calls := w.calls ++ [batch] }
        match respond w.callIdx with
        | TransportResult.ok =>
            send respond { w1 with metrics := w1.metrics.drop 20 }
        | TransportResult.clientError code =>
            if code = "Throttling" then
              send respond { w1 with metrics := w1.metrics.drop 20,
                                     diags := w1.diags ++ [(batch.length, w1.nspace)] }
            else (w1, Except.error (PyErr.clientError code))
        | TransportResult.raised msg => (w1, Except.error (PyErr.otherExc msg)) := by
  rw [send]

theorem chunks_unfold (l : List Metric) :
    chunks l = if l.length = 0 then [] else l.take 20 :: chunks (l.drop 20) := by
  rw [chunks]

theorem chunks_nil : chunks [] = [] := by
  rw [chunks_unfold]; simp

theorem expectedDiags_allOk (respond : Nat → TransportResult)
    (h : ∀ i, respond i = TransportResult.ok) (i : Nat) (bs : List (List Metric))
    (nspace : String) : expectedDiags respond i bs nspace = [] := by
  induction bs generalizing i with
  | nil => rfl
  | cons b rest ih =>
      rw [expectedDiags, h i, ih (i + 1)]
      simp

/-- Master lemma: when the transport never fails hard (every answer is
success or a `Throttling` `ClientError`), `send` drains the whole buffer,
passes exactly the `chunks` batches to the transport in order, emits one
diagnostic per throttled batch, and returns normally. -/
theorem send_no_hard_fail (respond : Nat → TransportResult)
    (h : ∀ i, respond i = TransportResult.ok ∨
              respond i = TransportResult.clientError "Throttling") :
    ∀ (n : Nat) (w : World), w.metrics.length ≤ n →
      send respond w =
        ({ w with metrics := [],
                  callIdx := w.callIdx + (chunks w.metrics).length,
                  calls := w.calls ++ chunks w.metrics,
                  diags := w.diags ++ expectedDiags respond w.callIdx (chunks w.metrics) w.nspace },
         Except.ok ()) := by
  intro n
  induction n with
  | zero =>
      intro w hw
      have hm : w.metrics = [] := List.length_eq_zero.mp (Nat.le_zero.mp hw)
      rw [send_unfold, chunks_unfold]
      cases w
      simp_all [expectedDiags]
  | succ n ih =>
      intro w hw
      by_cases hm : w.metrics.length = 0
      · have hm' : w.metrics = [] := List.length_eq_zero.mp hm
        rw [send_unfold, chunks_unfold]
        cases w
        simp_all [expectedDiags]
      · rw [send_unfold, chunks_unfold]
        simp only [hm, if_neg, if_false]
        rcases h w.callIdx with hr | hr
        · rw [hr]
          rw [ih { w with callIdx := w.callIdx + 1,
                          calls := w.calls ++ [w.metrics.take 20],
                          metrics := w.metrics.drop 20 }
              (by simp [List.length_drop]; omega)]
          rw [expectedDiags, hr]
          cases w
          simp [List.append_assoc]
          omega
        · rw [hr]
          simp only [if_pos, reduceIte]
          rw [ih { w with callIdx := w.callIdx + 1,
                          calls := w.calls ++ [w.metrics.take 20],
                          metrics := w.metrics.drop 20,
                          diags := w.diags ++ [((w.metrics.take 20).length, w.nspace)] }
              (by simp [List.length_drop]; omega)]
          rw [expectedDiags, hr]
          cases w
          simp [List.append_assoc]
          omega

theorem chunks_flatten_aux :
    ∀ (n : Nat) (l : List Metric), l.length ≤ n → (chunks l).flatten = l := by
  intro n
  induction n with
  | zero =>
      intro l hl
      have : l = [] := List.length_eq_zero.mp (Nat.le_zero.mp hl)
      subst this
      simp [chunks_nil]
  | succ n ih =>
      intro l hl
      rw [chunks_unfold]
      by_cases hm : l.length = 0
      · have : l = [] := List.length_eq_zero.mp hm
        subst this
        simp
      · rw [if_neg hm]
        rw [List.flatten_cons, ih (l.drop 20) (by simp [List.length_drop]; omega)]
        exact List.take_append_drop 20 l

/-- Concatenating the batches `send` forms gives back the buffer. -/
theorem chunks_flatten (l : List Metric) : (chunks l).flatten = l :=
  chunks_flatten_aux l.length l (Nat.le_refl _)

theorem chunks_getD_aux :
    ∀ (n : Nat) (l : List Metric), l.length ≤ n →
      ∀ (i : Nat), i < (chunks l).length →
        ((chunks l).getD i []).length = min 20 (l.length - 20 * i) := by
  intro n
  induction n with
  | zero =>
      intro l hl i h
      have : l = [] := List.length_eq_zero.mp (Nat.le_zero.mp hl)
      subst this
      rw [chunks_nil] at h
      simp at h
  | succ n ih =>
      intro l hl i h
      by_cases hm : l.length = 0
      · have : l = [] := List.length_eq_zero.mp hm
        subst this
        rw [chunks_nil] at h
        simp at h
      · rw [chunks_unfold, if_neg hm] at h ⊢
        cases i with
        | zero => simp [List.length_take, Nat.min_comm]
        | succ i =>
            rw [List.getD_cons_succ]
            rw [ih (l.drop 20) (by simp [List.length_drop]; omega) i (by simpa using h)]
            simp [List.length_drop]
            omega

/-- `put_value`/`put_statistic` touch only the metrics list. -/
theorem runPuts_frame : ∀ (ops : List PutOp) (w : World),
    (runPuts w ops).nspace = w.nspace ∧
    (runPuts w ops).nesting_level = w.nesting_level ∧
    (runPuts w ops).clock = w.clock ∧
    (runPuts w ops).callIdx = w.callIdx ∧
    (runPuts w ops).calls = w.calls ∧
    (runPuts w ops).diags = w.diags ∧
    (runPuts w ops).flushCount = w.flushCount := by
  intro ops
  induction ops with
  | nil => intro w; exact ⟨rfl, rfl, rfl, rfl, rfl, rfl, rfl⟩
  | cons op rest ih =>
      intro w
      cases op with
      | putValue mn v d u ts => simpa [runPuts, put_value] using ih (put_value w mn v d u ts)
      | putStatistic mn sc s mi ma ts d u =>
          simpa [runPuts, put_statistic] using ih (put_statistic w mn sc s mi ma ts d u)

/-- Specialization of the master lemma to an always-accepting transport:
`send` moves all buffered metrics into the call log, chunked, and changes
nothing else. -/
theorem send_allOk (respond : Nat → TransportResult)
    (hresp : ∀ i, respond i = TransportResult.ok) (w : World) :
    send respond w =
      ({ w with metrics := [],
                callIdx := w.callIdx + (chunks w.metrics).length,
                calls := w.calls ++ chunks w.metrics },
       Except.ok ()) := by
  rw [send_no_hard_fail respond (fun i => Or.inl (hresp i)) w.metrics.length w (Nat.le_refl _)]
  rw [expectedDiags_allOk respond hresp]
  simp

theorem chunks_small (l : List Metric) (hl : l.length ≤ 20) (hne : ¬ l.length = 0) :
    chunks l = [l] := by
  rw [chunks_unfold, if_neg hne, List.take_of_length_le hl, List.drop_eq_nil_of_le hl,
    chunks_nil]

theorem send_ok_of_soft (respond : Nat → TransportResult)
    (hresp : ∀ i, respond i = TransportResult.ok ∨
                  respond i = TransportResult.clientError "Throttling") (w : World) :
    (send respond w).2 = Except.ok () := by
  rw [send_no_hard_fail respond hresp w.metrics.length w (Nat.le_refl _)]

/-- Flushing against a transport with no hard failures moves metrics from
the buffer to the call log without losing, duplicating or reordering any:
the all-time metric history is unchanged. -/
theorem send_preserves_history (respond : Nat → TransportResult)
    (hresp : ∀ i, respond i = TransportResult.ok ∨
                  respond i = TransportResult.clientError "Throttling") (w : World) :
    history (send respond w).1 = history w := by
  rw [send_no_hard_fail respond hresp w.metrics.length w (Nat.le_refl _)]
  simp [history, List.flatten_append, chunks_flatten]

/-! ### Claim theorems -/

/-- C1: any sequence of `put_value`/`put_statistic` calls followed by
`send()`, with a transport that accepts every batch, delivers every
buffered DataPoint to the transport exactly once, in append order,
partitioned into consecutive batches of size `min(20, remaining)`; the
buffer is empty afterwards, and a flush of an empty buffer performs zero
transport calls. -/
theorem put_flush_delivers_all (w0 : World) (ops : List PutOp)
    (respond : Nat → TransportResult)
    (hresp : ∀ i, respond i = TransportResult.ok)
    (hc : w0.calls = []) :
    (send respond (runPuts w0 ops)).2 = Except.ok () ∧
    (send respond (runPuts w0 ops)).1.metrics = [] ∧
    (send respond (runPuts w0 ops)).1.calls.flatten = (runPuts w0 ops).metrics ∧
    (∀ (i : Nat), i < (send respond (runPuts w0 ops)).1.calls.length →
      ((send respond (runPuts w0 ops)).1.calls.getD i []).length =
        min 20 ((runPuts w0 ops).metrics.length - 20 * i)) ∧
    ((runPuts w0 ops).metrics = [] →
      (send respond (runPuts w0 ops)).1.calls = [] ∧
      (send respond (runPuts w0 ops)).1.callIdx = w0.callIdx) := by
  have hsend := send_no_hard_fail respond (fun i => Or.inl (hresp i))
    (runPuts w0 ops).metrics.length (runPuts w0 ops) (Nat.le_refl _)
  have hframe := runPuts_frame ops w0
  rw [hsend]
  refine ⟨rfl, rfl, ?_, ?_, ?_⟩
  · simp [hframe.2.2.2.2.1, hc, chunks_flatten]
  · intro i h
    simp only at h ⊢
    rw [hframe.2.2.2.2.1, hc] at h ⊢
    simpa using chunks_getD_aux (runPuts w0 ops).metrics.length (runPuts w0 ops).metrics
      (Nat.le_refl _) i (by simpa using h)
  · intro hempty
    simp [hempty, chunks_nil, hframe.2.2.2.1, hframe.2.2.2.2.1, hc]

/-- C1 witness: two values buffered then flushed with an all-accepting
transport leave an empty buffer. -/
theorem put_flush_delivers_all_witness :
    (send (fun _ => TransportResult.ok)
      (runPuts (initWorld "ns" 0)
        [PutOp.putValue "a" 1 DimIn.noDims none none,
         PutOp.putValue "b" 2 DimIn.noDims none none])).1.metrics = [] :=
  (put_flush_delivers_all (initWorld "ns" 0)
    [PutOp.putValue "a" 1 DimIn.noDims none none,
     PutOp.putValue "b" 2 DimIn.noDims none none]
    (fun _ => TransportResult.ok) (fun _ => rfl) rfl).2.1

/-- C10: `put_value` and `put_statistic` each append exactly one metric
record at the end of the buffer and change nothing else: the namespace, the
nesting level, the clock, the transport handle state (call index and call
log), the diagnostics, and the flush count are unchanged; every previously
buffered record is still there, in place, in front of the new one; and no
send is triggered by the append. -/
theorem put_appends_one_record_only (w : World) (mn : String) (v : Int) (d : DimIn)
    (u : Option String) (ts : Option Nat) (sc s mi ma : Int) :
    (put_value w mn v d u ts).metrics =
      w.metrics ++ [handle_common_params mn (Payload.value v) d u ts w.clock] ∧
    (put_statistic w mn sc s mi ma ts d u).metrics =
      w.metrics ++ [handle_common_params mn (Payload.statisticValues s sc mi ma) d u ts w.clock] ∧
    (put_value w mn v d u ts).nspace = w.nspace ∧
    (put_value w mn v d u ts).nesting_level = w.nesting_level ∧
    (put_value w mn v d u ts).clock = w.clock ∧
    (put_value w mn v d u ts).callIdx = w.callIdx ∧
    (put_value w mn v d u ts).calls = w.calls ∧
    (put_value w mn v d u ts).diags = w.diags ∧
    (put_value w mn v d u ts).flushCount = w.flushCount ∧
    (put_statistic w mn sc s mi ma ts d u).nspace = w.nspace ∧
    (put_statistic w mn sc s mi ma ts d u).nesting_level = w.nesting_level ∧
    (put_statistic w mn sc s mi ma ts d u).clock = w.clock ∧
    (put_statistic w mn sc s mi ma ts d u).callIdx = w.callIdx ∧
    (put_statistic w mn sc s mi ma ts d u).calls = w.calls ∧
    (put_statistic w mn sc s mi ma ts d u).diags = w.diags ∧
    (put_statistic w mn sc s mi ma ts d u).flushCount = w.flushCount :=
  ⟨rfl, rfl, rfl, rfl, rfl, rfl, rfl, rfl, rfl, rfl, rfl, rfl, rfl, rfl, rfl, rfl⟩

/-- C2: run of the actual `_nested` bookkeeping on a count-wrapped function
whose body raises, starting at nesting level 0: the error does propagate
unchanged, but because the decrement sits after the call with no
`try`/`finally`, the nesting level is left stuck at 1 (and no flush ever
fired) — contradicting the spec's guaranteed-cleanup requirement. -/
theorem nested_counter_stuck_on_error :
    (count (fun _ => TransportResult.ok) "calls" 1 DimIn.noDims
      (failLogic 5 (PyErr.userErr "boom") : Prog Unit) (initWorld "ns" 0)).2 =
        Except.error (PyErr.userErr "boom") ∧
    (count (fun _ => TransportResult.ok) "calls" 1 DimIn.noDims
      (failLogic 5 (PyErr.userErr "boom") : Prog Unit) (initWorld "ns" 0)).1.nesting_level = 1 ∧
    (count (fun _ => TransportResult.ok) "calls" 1 DimIn.noDims
      (failLogic 5 (PyErr.userErr "boom") : Prog Unit) (initWorld "ns" 0)).1.flushCount = 0 :=
  ⟨rfl, rfl, rfl⟩

theorem expectedDiags_mem (respond : Nat → TransportResult) :
    ∀ (bs : List (List Metric)) (i j : Nat) (nspace : String) (c : String),
      j < bs.length → respond (i + j) = TransportResult.clientError c →
      ((bs.getD j []).length, nspace) ∈ expectedDiags respond i bs nspace := by
  intro bs
  induction bs with
  | nil => intro i j nspace c h; simp at h
  | cons b rest ih =>
      intro i j nspace c h hr
      cases j with
      | zero =>
          rw [expectedDiags]
          rw [Nat.add_zero] at hr
          rw [hr]
          simp
      | succ j =>
          rw [expectedDiags]
          have hr' : respond ((i + 1) + j) = TransportResult.clientError c := by
            rw [show (i + 1) + j = i + (j + 1) by omega]; exact hr
          have := ih (i + 1) j nspace c (by simpa using h) hr'
          simp only [List.getD_cons_succ]
          exact List.mem_append.mpr (Or.inr this)

/-- C3: when every transport answer is either success or a `Throttling`
`ClientError`, `send` returns normally (the throttling error is never
surfaced to the caller), the buffer is completely drained, every batch is
passed to the transport exactly once (no retry, no re-queue), and one
diagnostic — the batch size and namespace that the code prints — is emitted
for each throttled batch. -/
theorem send_throttled_batch_dropped (w : World) (respond : Nat → TransportResult)
    (hresp : ∀ i, respond i = TransportResult.ok ∨
                  respond i = TransportResult.clientError "Throttling") :
    (send respond w).2 = Except.ok () ∧
    (send respond w).1.metrics = [] ∧
    (send respond w).1.calls = w.calls ++ chunks w.metrics ∧
    (send respond w).1.diags =
      w.diags ++ expectedDiags respond w.callIdx (chunks w.metrics) w.nspace ∧
    (∀ j, j < (chunks w.metrics).length →
      respond (w.callIdx + j) = TransportResult.clientError "Throttling" →
      (((chunks w.metrics).getD j []).length, w.nspace) ∈ (send respond w).1.diags) := by
  rw [send_no_hard_fail respond hresp w.metrics.length w (Nat.le_refl _)]
  refine ⟨rfl, rfl, rfl, rfl, ?_⟩
  intro j hj hr
  simp only
  exact List.mem_append.mpr (Or.inr (expectedDiags_mem respond (chunks w.metrics)
    w.callIdx j w.nspace "Throttling" hj hr))

/-- C3 witness: a single buffered metric flushed against a transport that
always throttles still returns normally. -/
theorem send_throttled_batch_dropped_witness :
    (send (fun _ => TransportResult.clientError "Throttling")
      { nspace := "ns",
        metrics := [{ metricName := "a", payload := Payload.value 1, unit := none,
                      dimensions := none, timestamp := 0 }],
        nesting_level := 0, clock := 0, callIdx := 0, calls := [], diags := [],
        flushCount := 0 }).2 = Except.ok () :=
  (send_throttled_batch_dropped
    { nspace := "ns",
      metrics := [{ metricName := "a", payload := Payload.value 1, unit := none,
                    dimensions := none, timestamp := 0 }],
      nesting_level := 0, clock := 0, callIdx := 0, calls := [], diags := [],
      flushCount := 0 }
    (fun _ => TransportResult.clientError "Throttling") (fun _ => Or.inr rfl)).1

/-- C4: when the transport accepts the first `k` batches and then fails the
`(k+1)`-st with a hard (non-`Throttling`) failure, `send` propagates that
error to its caller immediately; the `20 * k` DataPoints of the accepted
batches are gone from the buffer, every remaining DataPoint — starting with
the failing batch itself — is still buffered in order, and the last batch
passed to the transport (the failing one) is exactly the first
`min(20, remaining)` DataPoints still in the buffer. -/
theorem send_hard_failure_keeps_rest :
    ∀ (k : Nat) (w : World) (respond : Nat → TransportResult) (e : PyErr),
      20 * k < w.metrics.length →
      (∀ j, j < k → respond (w.callIdx + j) = TransportResult.ok) →
      hardError (respond (w.callIdx + k)) = some e →
      (send respond w).2 = Except.error e ∧
      (send respond w).1.metrics = w.metrics.drop (20 * k) ∧
      (send respond w).1.calls = w.calls ++ (chunks w.metrics).take (k + 1) ∧
      (send respond w).1.calls.getLast? = some ((send respond w).1.metrics.take 20) := by
  intro k
  induction k with
  | zero =>
      intro w respond e hk hok hfail
      have hm : ¬ w.metrics.length = 0 := by omega
      rw [Nat.add_zero] at hfail
      rw [send_unfold, chunks_unfold]
      cases hr : respond w.callIdx with
      | ok => rw [hr] at hfail; simp [hardError] at hfail
      | clientError c =>
          rw [hr] at hfail
          by_cases hc : c = "Throttling"
          · subst hc; simp [hardError] at hfail
          · simp only [hardError, if_neg hc, Option.some.injEq] at hfail
            subst hfail
            simp [hm, hc, List.getLast?_concat]
      | raised m =>
          rw [hr] at hfail
          simp only [hardError, Option.some.injEq] at hfail
          subst hfail
          simp [hm, List.getLast?_concat]
  | succ k ih =>
      intro w respond e hk hok hfail
      have hm : ¬ w.metrics.length = 0 := by omega
      have hr0 : respond w.callIdx = TransportResult.ok := by
        simpa using hok 0 (by omega)
      rw [send_unfold, chunks_unfold]
      simp only [hm, if_neg, if_false, hr0]
      have hk' : 20 * k <
          (({ w with callIdx := w.callIdx + 1,
                     calls := w.calls ++ [w.metrics.take 20] } : World).metrics.drop 20).length := by
        simp [List.length_drop]; omega
      obtain ⟨h1, h2, h3, h4⟩ := ih
        { w with callIdx := w.callIdx + 1,
                 calls := w.calls ++ [w.metrics.take 20],
                 metrics := w.metrics.drop 20 }
        respond e (by simpa using hk')
        (by intro j hj
            have := hok (j + 1) (by omega)
            simpa [Nat.add_assoc, Nat.add_comm 1 j] using this)
        (by have : w.callIdx + 1 + k = w.callIdx + (k + 1) := by omega
            simpa [this] using hfail)
      refine ⟨h1, ?_, ?_, h4⟩
      · rw [h2]
        simp only [List.drop_drop]
        congr 1
        omega
      · rw [h3]
        simp [List.take_succ_cons, List.append_assoc]

/-- C4 witness: 25 buffered metrics, success then a hard `ClientError` on
the second call: the error propagates and the last 5 metrics (the failing
batch) stay buffered. -/
theorem send_hard_failure_keeps_rest_witness :
    20 * 1 < (wTwentyFive).metrics.length ∧
    (send respondBoom wTwentyFive).2 = Except.error (PyErr.clientError "Boom") := by
  refine ⟨by decide, ?_⟩
  exact (send_hard_failure_keeps_rest 1 wTwentyFive respondBoom (PyErr.clientError "Boom")
    (by decide) (by decide) (by decide)).1

/-- C5: one successful invocation of a function wrapped by three stacked
wrappers (`count` over `timeit` over `count`), from nesting level 0,
returns the wrapped value, produces exactly one DataPoint per wrapper, and
triggers exactly one flush — issued after the innermost logic has returned
and all three wrappers have recorded, so all three DataPoints travel in
that single flush (here a single transport batch, innermost first). -/
theorem stacked_wrappers_single_flush {α : Type} (w : World)
    (respond : Nat → TransportResult)
    (hresp : ∀ i, respond i = TransportResult.ok)
    (h0 : w.nesting_level = 0) (hm : w.metrics = []) (hc : w.calls = [])
    (oname tname iname : String) (ocv icv : Int) (od td idim : DimIn)
    (d : Nat) (ret : α) :
    (count respond oname ocv od (timeit respond tname td
        (count respond iname icv idim (pureLogic d ret))) w).2 = Except.ok ret ∧
    (count respond oname ocv od (timeit respond tname td
        (count respond iname icv idim (pureLogic d ret))) w).1.flushCount =
      w.flushCount + 1 ∧
    (count respond oname ocv od (timeit respond tname td
        (count respond iname icv idim (pureLogic d ret))) w).1.metrics = [] ∧
    (count respond oname ocv od (timeit respond tname td
        (count respond iname icv idim (pureLogic d ret))) w).1.calls =
      [[handle_common_params iname (Payload.value icv) idim none none (w.clock + d),
        handle_common_params tname (Payload.value (Int.ofNat d)) td
          (some "Milliseconds") none (w.clock + d),
        handle_common_params oname (Payload.value ocv) od none none (w.clock + d)]] := by
  simp only [count, timeit, nested, pureLogic, put_value, h0, hm, hc]
  norm_num
  rw [send_allOk respond hresp]
  norm_num
  rw [chunks_small _ (by simp) (by simp)]

/-- C5 witness: a concrete triple-wrapped call flushes once, with the three
DataPoints in one batch. -/
theorem stacked_wrappers_single_flush_witness :
    (count (fun _ => TransportResult.ok) "outer" 1 DimIn.noDims
      (timeit (fun _ => TransportResult.ok) "time" DimIn.noDims
        (count (fun _ => TransportResult.ok) "inner" 100 DimIn.noDims
          (pureLogic 7 (42 : Nat)))) (initWorld "ns" 0)).1.flushCount = 0 + 1 :=
  (stacked_wrappers_single_flush (initWorld "ns" 0) (fun _ => TransportResult.ok)
    (fun _ => rfl) rfl rfl rfl "outer" "time" "inner" 1 100 DimIn.noDims DimIn.noDims
    DimIn.noDims 7 (42 : Nat)).2.1

/-- C6 counterexample: instrumented `A` directly calling instrumented `B`
of the same buffer, from nesting level 0, does NOT produce two independent
flush triggers: exactly one flush fires (when `A` returns; `B`'s exit only
brings the shared counter to 1), and `B`'s DataPoint is delivered inside
`A`'s single flush rather than by a flush of its own. -/
theorem call_in_call_counterexample :
    ¬ ((count (fun _ => TransportResult.ok) "A" 1 DimIn.noDims
          (count (fun _ => TransportResult.ok) "B" 1 DimIn.noDims (pureLogic 0 ()))
          (initWorld "ns" 0)).1.flushCount = 2) ∧
    (count (fun _ => TransportResult.ok) "A" 1 DimIn.noDims
        (count (fun _ => TransportResult.ok) "B" 1 DimIn.noDims (pureLogic 0 ()))
        (initWorld "ns" 0)).1.flushCount = 1 ∧
    (count (fun _ => TransportResult.ok) "A" 1 DimIn.noDims
        (count (fun _ => TransportResult.ok) "B" 1 DimIn.noDims (pureLogic 0 ()))
        (initWorld "ns" 0)).1.calls =
      [[{ metricName := "B", payload := Payload.value 1, unit := none,
          dimensions := none, timestamp := 0 },
        { metricName := "A", payload := Payload.value 1, unit := none,
          dimensions := none, timestamp := 0 }]] := by
  simp only [count, nested, pureLogic, put_value, initWorld]
  norm_num
  rw [send_allOk _ (fun _ => rfl)]
  norm_num
  rw [chunks_small _ (by simp) (by simp)]
  simp [handle_common_params, normDims]

/-- C6 amended: an instrumented function `A` calling instrumented function
`B` from within its body, from nesting level 0, triggers exactly ONE flush:
`B`'s exit only lowers the shared counter from 2 to 1 (no flush), `A`'s
exit reaches 0 and flushes, and by then `B`'s DataPoint is already
buffered, so both DataPoints go out in that same single flush (`B`'s
first). -/
theorem call_in_call_single_flush {α : Type} (w : World)
    (respond : Nat → TransportResult)
    (hresp : ∀ i, respond i = TransportResult.ok)
    (h0 : w.nesting_level = 0) (hm : w.metrics = []) (hc : w.calls = [])
    (aname bname : String) (acv bcv : Int) (ad bd : DimIn) (d : Nat) (ret : α) :
    (count respond aname acv ad
        (count respond bname bcv bd (pureLogic d ret)) w).2 = Except.ok ret ∧
    (count respond aname acv ad
        (count respond bname bcv bd (pureLogic d ret)) w).1.flushCount =
      w.flushCount + 1 ∧
    (count respond aname acv ad
        (count respond bname bcv bd (pureLogic d ret)) w).1.metrics = [] ∧
    (count respond aname acv ad
        (count respond bname bcv bd (pureLogic d ret)) w).1.calls =
      [[handle_common_params bname (Payload.value bcv) bd none none (w.clock + d),
        handle_common_params aname (Payload.value acv) ad none none (w.clock + d)]] := by
  simp only [count, nested, pureLogic, put_value, h0, hm, hc]
  norm_num
  rw [send_allOk respond hresp]
  norm_num
  rw [chunks_small _ (by simp) (by simp)]

/-- C6 witness: a concrete call-in-call run flushes once with both
DataPoints. -/
theorem call_in_call_single_flush_witness :
    (count (fun _ => TransportResult.ok) "A" 2 DimIn.noDims
      (count (fun _ => TransportResult.ok) "B" 3 DimIn.noDims (pureLogic 4 (5 : Nat)))
      (initWorld "ns" 0)).1.flushCount = 0 + 1 :=
  (call_in_call_single_flush (initWorld "ns" 0) (fun _ => TransportResult.ok)
    (fun _ => rfl) rfl rfl rfl "A" "B" 2 3 DimIn.noDims DimIn.noDims 4 (5 : Nat)).2.1

/-- C7 counterexample: the wrapped logic succeeds, yet the caller of the
instrumented function receives a transport `ClientError` — raised by the
guard-triggered `send()` at nesting level 0, not by any explicit `flush()`
call — so a metrics-submission error other than the rate-limit diagnostic
or an explicit-flush error does reach the caller. -/
theorem metrics_error_reaches_wrapped_caller :
    (count (fun _ => TransportResult.clientError "Boom") "c" 1 DimIn.noDims
        (pureLogic 0 ()) (initWorld "ns" 0)).2 =
      Except.error (PyErr.clientError "Boom") := by
  simp only [count, nested, pureLogic, put_value, initWorld]
  norm_num
  rw [send_unfold]
  simp

/-- C7 amended: the wrappers return the wrapped logic's value, or propagate
its error, unchanged; as long as the transport never fails hard (success or
throttling only), no error reaches the caller of an instrumented function
due to metrics submission — a hard transport failure, however, surfaces
from whichever `send()` runs, explicit or guard-triggered. -/
theorem wrappers_preserve_result {α : Type} (w : World)
    (respond anyRespond : Nat → TransportResult)
    (hresp : ∀ i, respond i = TransportResult.ok ∨
                  respond i = TransportResult.clientError "Throttling")
    (mn : String) (cv : Int) (dims : DimIn) (d : Nat) (ret : α) (e : PyErr) :
    (count respond mn cv dims (pureLogic d ret) w).2 = Except.ok ret ∧
    (timeit respond mn dims (pureLogic d ret) w).2 = Except.ok ret ∧
    (count anyRespond mn cv dims (failLogic d e : Prog α) w).2 = Except.error e ∧
    (timeit anyRespond mn dims (failLogic d e : Prog α) w).2 = Except.error e := by
  refine ⟨?_, ?_, rfl, rfl⟩
  · simp only [count, nested, pureLogic, put_value]
    split
    · rw [send_no_hard_fail respond hresp _ _ (Nat.le_refl _)]
    · rfl
  · simp only [timeit, nested, pureLogic, put_value]
    split
    · rw [send_no_hard_fail respond hresp _ _ (Nat.le_refl _)]
    · rfl

/-- C7 witness: with a throttling-only transport, a count-wrapped call
returns the wrapped value, and a failing wrapped body propagates its own
error. -/
theorem wrappers_preserve_result_witness :
    (count (fun _ => TransportResult.clientError "Throttling") "c" 1 DimIn.noDims
        (pureLogic 0 (7 : Nat)) (initWorld "ns" 0)).2 = Except.ok 7 ∧
    (timeit (fun _ => TransportResult.clientError "Throttling") "t" DimIn.noDims
        (failLogic 0 (PyErr.userErr "oops") : Prog Nat) (initWorld "ns" 0)).2 =
      Except.error (PyErr.userErr "oops") :=
  ⟨(wrappers_preserve_result (initWorld "ns" 0)
      (fun _ => TransportResult.clientError "Throttling")
      (fun _ => TransportResult.clientError "Throttling")
      (fun _ => Or.inr rfl) "c" 1 DimIn.noDims 0 (7 : Nat) (PyErr.userErr "oops")).1,
   (wrappers_preserve_result (initWorld "ns" 0)
      (fun _ => TransportResult.clientError "Throttling")
      (fun _ => TransportResult.clientError "Throttling")
      (fun _ => Or.inr rfl) "t" 1 DimIn.noDims 0 (7 : Nat) (PyErr.userErr "oops")).2.2.2⟩

/-- C8: a `timeit`-wrapped call whose logic takes `d` ms and returns
normally returns the logic's value and appends exactly one Value DataPoint
carrying the elapsed `d` milliseconds, unit `Milliseconds`, the configured
name and dimensions (timestamped at completion); if the wrapped logic
raises, the error propagates and no duration DataPoint is appended. -/
theorem timeit_records_elapsed_on_success_only {α : Type} (w : World)
    (respond : Nat → TransportResult)
    (hresp : ∀ i, respond i = TransportResult.ok ∨
                  respond i = TransportResult.clientError "Throttling")
    (mn : String) (dims : DimIn) (d : Nat) (ret : α) (e : PyErr) :
    (timeit respond mn dims (pureLogic d ret) w).2 = Except.ok ret ∧
    history (timeit respond mn dims (pureLogic d ret) w).1 =
      history w ++ [handle_common_params mn (Payload.value (Int.ofNat d)) dims
        (some "Milliseconds") none (w.clock + d)] ∧
    (timeit respond mn dims (failLogic d e : Prog α) w).2 = Except.error e ∧
    history (timeit respond mn dims (failLogic d e : Prog α) w).1 = history w := by
  refine ⟨?_, ?_, rfl, rfl⟩
  · simp only [timeit, nested, pureLogic, put_value]
    split
    · rw [send_no_hard_fail respond hresp _ _ (Nat.le_refl _)]
    · rfl
  · simp only [timeit, nested, pureLogic, put_value]
    split
    · rw [send_no_hard_fail respond hresp _ _ (Nat.le_refl _)]
      simp [history, List.flatten_append, chunks_flatten, List.append_assoc,
        Nat.add_sub_cancel_left]
    · simp [history, List.append_assoc, Nat.add_sub_cancel_left]

/-- C8 witness: a concrete timed call of 7 ms records a 7-millisecond Value
DataPoint and returns the wrapped value. -/
theorem timeit_records_elapsed_witness :
    (timeit (fun _ => TransportResult.ok) "t" DimIn.noDims
        (pureLogic 7 (3 : Nat)) (initWorld "ns" 100)).2 = Except.ok 3 ∧
    history (timeit (fun _ => TransportResult.ok) "t" DimIn.noDims
        (pureLogic 7 (3 : Nat)) (initWorld "ns" 100)).1 =
      history (initWorld "ns" 100) ++
        [handle_common_params "t" (Payload.value (Int.ofNat 7)) DimIn.noDims
          (some "Milliseconds") none ((initWorld "ns" 100).clock + 7)] :=
  ⟨(timeit_records_elapsed_on_success_only (initWorld "ns" 100)
      (fun _ => TransportResult.ok) (fun _ => Or.inl rfl) "t" DimIn.noDims 7 (3 : Nat)
      (PyErr.userErr "x")).1,
   (timeit_records_elapsed_on_success_only (initWorld "ns" 100)
      (fun _ => TransportResult.ok) (fun _ => Or.inl rfl) "t" DimIn.noDims 7 (3 : Nat)
      (PyErr.userErr "x")).2.1⟩

/-- One `count`-wrapped call with successfully returning logic: returns the
value, advances the clock by the logic's duration, and appends exactly one
count DataPoint to the all-time history. -/
theorem count_call_history {α : Type} (w : World) (respond : Nat → TransportResult)
    (hresp : ∀ i, respond i = TransportResult.ok ∨
                  respond i = TransportResult.clientError "Throttling")
    (mn : String) (cv : Int) (dims : DimIn) (d : Nat) (ret : α) :
    (count respond mn cv dims (pureLogic d ret) w).2 = Except.ok ret ∧
    (count respond mn cv dims (pureLogic d ret) w).1.clock = w.clock + d ∧
    history (count respond mn cv dims (pureLogic d ret) w).1 =
      history w ++ [handle_common_params mn (Payload.value cv) dims none none
        (w.clock + d)] := by
  refine ⟨?_, ?_, ?_⟩
  · simp only [count, nested, pureLogic, put_value]
    split
    · rw [send_no_hard_fail respond hresp _ _ (Nat.le_refl _)]
    · rfl
  · simp only [count, nested, pureLogic, put_value]
    split
    · rw [send_no_hard_fail respond hresp _ _ (Nat.le_refl _)]
    · rfl
  · simp only [count, nested, pureLogic, put_value]
    split
    · rw [send_no_hard_fail respond hresp _ _ (Nat.le_refl _)]
      simp [history, List.flatten_append, chunks_flatten, List.append_assoc]
    · simp [history, List.append_assoc]

theorem iterate_count_history (respond : Nat → TransportResult)
    (hresp : ∀ i, respond i = TransportResult.ok ∨
                  respond i = TransportResult.clientError "Throttling")
    (mn : String) (cv : Int) (dims : DimIn) (d : Nat) :
    ∀ (N : Nat) (w : World),
      (iterate (count respond mn cv dims (pureLogic d ())) N w).2 = Except.ok () ∧
      (iterate (count respond mn cv dims (pureLogic d ())) N w).1.clock =
        w.clock + N * d ∧
      history (iterate (count respond mn cv dims (pureLogic d ())) N w).1 =
        history w ++ (List.range N).map (fun i =>
          handle_common_params mn (Payload.value cv) dims none none
            (w.clock + (i + 1) * d)) := by
  intro N
  induction N with
  | zero => intro w; exact ⟨rfl, by simp [iterate], by simp [iterate]⟩
  | succ N ih =>
      intro w
      obtain ⟨h1, h2, h3⟩ := count_call_history w respond hresp mn cv dims d ()
      rcases hcall : count respond mn cv dims (pureLogic d ()) w with ⟨w1, r1⟩
      rw [hcall] at h1 h2 h3
      have h1' : r1 = Except.ok () := h1
      have h2' : w1.clock = w.clock + d := h2
      have h3' : history w1 =
          history w ++ [handle_common_params mn (Payload.value cv) dims none none
            (w.clock + d)] := h3
      subst h1'
      rw [iterate, hcall]
      obtain ⟨g1, g2, g3⟩ := ih w1
      refine ⟨g1, g2.trans ?_, g3.trans ?_⟩
      · rw [h2']; ring
      · rw [h3', h2', List.range_succ_eq_map, List.map_cons, List.map_map,
          List.append_assoc, List.singleton_append]
        congr 1
        congr 1
        · congr 1
          ring
        · refine List.map_congr_left ?_
          intro i _
          simp only [Function.comp_apply, Nat.succ_eq_add_one]
          congr 1
          ring

/-- C9: invoking a `count`-wrapped function `N` times, each invocation
returning normally, appends `N` separate Value DataPoints — one per
invocation, each carrying the configured `count_value` (default 1), each
timestamped after its own invocation's logic returned — not one pre-summed
DataPoint; and an invocation whose logic raises records nothing. -/
theorem count_n_invocations_n_points (w : World) (respond : Nat → TransportResult)
    (hresp : ∀ i, respond i = TransportResult.ok ∨
                  respond i = TransportResult.clientError "Throttling")
    (mn : String) (cv : Int) (dims : DimIn) (d : Nat) (N : Nat) (e : PyErr) :
    (iterate (count respond mn cv dims (pureLogic d ())) N w).2 = Except.ok () ∧
    history (iterate (count respond mn cv dims (pureLogic d ())) N w).1 =
      history w ++ (List.range N).map (fun i =>
        handle_common_params mn (Payload.value cv) dims none none
          (w.clock + (i + 1) * d)) ∧
    (count respond mn cv dims (failLogic d e : Prog Unit) w).2 = Except.error e ∧
    history (count respond mn cv dims (failLogic d e : Prog Unit) w).1 = history w := by
  obtain ⟨h1, _, h3⟩ := iterate_count_history respond hresp mn cv dims d N w
  exact ⟨h1, h3, rfl, rfl⟩

/-- C9 witness: three concrete invocations with the default count value
produce three separate value-1 DataPoints. -/
theorem count_n_invocations_n_points_witness :
    history (iterate (count (fun _ => TransportResult.ok) "c" 1 DimIn.noDims
        (pureLogic 2 ())) 3 (initWorld "ns" 0)).1 =
      history (initWorld "ns" 0) ++ (List.range 3).map (fun i =>
        handle_common_params "c" (Payload.value 1) DimIn.noDims none none
          ((initWorld "ns" 0).clock + (i + 1) * 2)) :=
  (count_n_invocations_n_points (initWorld "ns" 0) (fun _ => TransportResult.ok)
    (fun _ => Or.inl rfl) "c" 1 DimIn.noDims 2 3 (PyErr.userErr "x")).2.1

end Cwmetrics
